import Mathlib

/-!
Verification development for the Bovitrack KPI and analytics engine.

The Python source (Flask generation: `app/models.py`, `app/utils.py`,
`app/routes.py`; Django generation: `backend_django/api/views.py`,
`backend_django/api/serializers.py`) is shallowly embedded here:

* calendar dates are integer day numbers (`Date := Int`); subtracting two
  dates gives the `.days` of the Python `timedelta`;
* float weights, ages and rates are modelled as rationals (`ℚ`);
* Python's `round(x, n)` is modelled as half-up decimal rounding
  (`pyRound2` / `pyRound3`); it agrees with Python except at exact decimal
  ties, which none of the statements below touch;
* Python's stable `sorted(lst, key=...)` (and `reverse=True`) is modelled by
  Mathlib's stable `List.insertionSort` with the corresponding non-strict
  total preorder: a stable sort's output is uniquely determined by the
  comparison, so this is exact;
* a missing row / SQL `NULL` / an absent dict key is `Option.none`;
* SQLAlchemy / Django ORM relationship lists appear in insertion (primary
  key) order, as SQLite returns them.

Functions keep their Python names inside a `Flask` or `Django` namespace
according to which backend generation they embed.
-/

set_option maxRecDepth 8000

namespace Bovitrack

/-- Dates as integer day numbers. -/
abbrev Date := Int

/-- Python `round(x, 2)` modelled over `ℚ` as half-up rounding to 2 decimals. -/
def pyRound2 (q : ℚ) : ℚ := ((q * 100 + 1 / 2).floor : ℚ) / 100

/-- Python `round(x, 3)` modelled over `ℚ` as half-up rounding to 3 decimals. -/
def pyRound3 (q : ℚ) : ℚ := ((q * 1000 + 1 / 2).floor : ℚ) / 1000

/-- Row of the `weighting` table (`app/models.py`, class `Weighting`). -/
structure Weighting where
  id : Nat
  date : Date
  weight_kg : ℚ
deriving DecidableEq, Repr

/-- Row of the `location_change` table (`app/models.py`, class `LocationChange`). -/
structure LocationChange where
  id : Nat
  date : Date
  location_id : Nat
  sublocation_id : Option Nat
deriving DecidableEq, Repr

/-- Row of the `diet_log` table (`app/models.py`, class `DietLog`). -/
structure DietLog where
  id : Nat
  date : Date
  diet_type : String
  daily_intake_percentage : Option ℚ
deriving DecidableEq, Repr

/-- Row of the `sale` table (`app/models.py`, class `Sale`). -/
structure Sale where
  id : Nat
  date : Date
  sale_price : ℚ
deriving DecidableEq, Repr

/-- Row of the `death` table (`app/models.py`, class `Death`). -/
structure Death where
  id : Nat
  date : Date
deriving DecidableEq, Repr

/-- Row of the `purchase` table (one animal) together with its related event
collections, as hydrated by either ORM.  The one-to-one `sale` / `death`
relationships are `Option`s. -/
structure Purchase where
  id : Nat
  ear_tag : String
  lot : Int
  entry_date : Date
  entry_weight : ℚ
  sex : String
  entry_age : ℚ
  weightings : List Weighting
  location_changes : List LocationChange
  diet_logs : List DietLog
  sale : Option Sale
  death : Option Death
deriving DecidableEq, Repr

/-- One point of the per-animal weight history
(`calculate_weight_history_with_gmd` in `app/utils.py`; the Django port in
`AnimalMasterRecordSerializer.get_weight_history` is line-for-line the same
computation). -/
structure HistPoint where
  date : Date
  weight_kg : ℚ
  gmd_accumulated_grams : ℚ
  gmd_period_grams : ℚ
deriving DecidableEq, Repr

/-- A standardized weight event: `{'date': ..., 'weight_kg': ...}`. -/
structure WEvent where
  date : Date
  weight_kg : ℚ
deriving DecidableEq, Repr

/-- `all_weight_events`: the entry (date, weight) anchor followed by the
recorded weighings (`app/utils.py` lines 38-51). -/
def all_weight_events (a : Purchase) : List WEvent :=
  ⟨a.entry_date, a.entry_weight⟩ :: a.weightings.map fun w => ⟨w.date, w.weight_kg⟩

/-- Helper for `dedupEvents`: drop events already seen. -/
def dedupSeen (seen : List WEvent) : List WEvent → List WEvent
  | [] => []
  | x :: xs => if x ∈ seen then dedupSeen seen xs else x :: dedupSeen (x :: seen) xs

/-- `unique_events = [dict(t) for t in {tuple(d.items()) for d in all_weight_events}]`:
deduplication by exact (date, weight) equality.  A Python set is unordered, so
the source fixes no order before the sort; we keep the first occurrence. -/
def dedupEvents (l : List WEvent) : List WEvent := dedupSeen [] l

/-- `sorted_events = sorted(unique_events, key=lambda w: w['date'])`
(`app/utils.py` line 56). -/
def sorted_events (a : Purchase) : List WEvent :=
  List.insertionSort (fun x y : WEvent => x.date ≤ y.date)
    (dedupEvents (all_weight_events a))

/-- The accumulated-GMD expression of the loop body (`app/utils.py` lines 72-74):
`(gain_since_start / days_since_start) if days_since_start > 0 else 0`. -/
def gmd_accumulated (first cur : WEvent) : ℚ :=
  let days : Int := cur.date - first.date
  if 0 < days then (cur.weight_kg - first.weight_kg) / (days : ℚ) else 0

/-- The period-GMD expression of the loop body (`app/utils.py` lines 77-84):
0 at index 0, otherwise `(gain_between / days_between) if days_between > 0 else 0`
against `sorted_events[i-1]`. -/
def gmd_period_at (s : List WEvent) (first : WEvent) (i : Nat) : ℚ :=
  if i = 0 then 0
  else
    let prev := s.getD (i - 1) first
    let cur := s.getD i first
    let days : Int := cur.date - prev.date
    if 0 < days then (cur.weight_kg - prev.weight_kg) / (days : ℚ) else 0

/-- `calculate_weight_history_with_gmd` (`app/utils.py` lines 29-93): inject the
entry anchor, deduplicate, sort ascending by date, then enrich every point with
rounded accumulated and period GMD.  The loop
`for i, current_event in enumerate(sorted_events)` is rendered as a map over
indices. -/
def calculate_weight_history_with_gmd (a : Purchase) : List HistPoint :=
  let s := sorted_events a
  match s.head? with
  | none => []
  | some first =>
    (List.range s.length).map fun i =>
      let cur := s.getD i first
      { date := cur.date
        weight_kg := pyRound2 cur.weight_kg
        gmd_accumulated_grams := pyRound3 (gmd_accumulated first cur)
        gmd_period_grams := pyRound3 (gmd_period_at s first i) }

/-- The per-animal KPI dictionary assembled by `Purchase.calculate_kpis`
(`app/models.py`) and by `AnimalMasterRecordSerializer.get_calculated_kpis`
(`backend_django/api/serializers.py`).  A key that a code path leaves out of
the dict, or fills with Python `None` / SQL `NULL`, is `none` here. -/
structure Kpis where
  average_daily_gain_kg : ℚ
  last_weight_kg : ℚ
  last_weighting_date : Date
  current_age_months : ℚ
  forecasted_current_weight_kg : Option ℚ
  status : String
  days_on_farm : Option Int
  current_location_name : Option String
  current_location_id : Option Nat
  current_sublocation_name : Option String
  current_sublocation_id : Option Nat
  current_diet_type : Option String
  current_diet_intake : Option ℚ
deriving DecidableEq, Repr

/-- Last element of a nonempty list, as Python `lst[-1]`; `first` is the
already-matched head so no default is ever fabricated. -/
def pyLast (first : α) : List α → α
  | [] => first
  | [x] => x
  | _ :: x :: xs => pyLast first (x :: xs)

namespace Flask

/-- `sorted(events, key=lambda e: e.date, reverse=True)[0]` as used in
`Purchase.calculate_kpis` and `calculate_location_kpis`: Python's sort is
stable, so among events sharing the maximal date the earliest-listed one ends
up first. -/
def latestByDateDesc {α : Type} [DecidableEq α] (dateOf : α → Date) (l : List α) : Option α :=
  (List.insertionSort (fun x y => dateOf y ≤ dateOf x) l).head?

/-- `Purchase.calculate_kpis` (`app/models.py` lines 144-228).  `locName` and
`sublocName` stand for the foreign-key dereferences
`latest_change.location.name` / `latest_change.sublocation.name`;
`today = date.today()`. -/
def calculate_kpis (locName sublocName : Nat → String) (a : Purchase) (today : Date) : Kpis :=
  -- current location (lines 152-164); defaults: name "N/A", ids/None
  let latest_change := latestByDateDesc (·.date) a.location_changes
  let cLocName : String :=
    match latest_change with
    | some lc => locName lc.location_id
    | none => "N/A"
  let cLocId : Option Nat := latest_change.map (·.location_id)
  let cSubName : Option String :=
    match latest_change with
    | some lc => (lc.sublocation_id).map sublocName
    | none => none
  let cSubId : Option Nat :=
    match latest_change with
    | some lc => lc.sublocation_id
    | none => none
  -- current diet (lines 166-172)
  let latest_diet := latestByDateDesc (·.date) a.diet_logs
  let cDietType : String :=
    match latest_diet with
    | some dl => dl.diet_type
    | none => "N/A"
  let cDietIntake : Option ℚ :=
    match latest_diet with
    | some dl => dl.daily_intake_percentage
    | none => none
  -- GMD and last weight (lines 174-193): only the explicit weighings, and only
  -- when there are at least two of them
  let sorted_weights :=
    List.insertionSort (fun x y : Weighting => x.date ≤ y.date) a.weightings
  let gla : ℚ × ℚ × Date :=
    match sorted_weights with
    | [] => (0, a.entry_weight, a.entry_date)
    | [_] => (0, a.entry_weight, a.entry_date)
    | first :: rest =>
      let lastw := pyLast first rest
      let total_days : Int := lastw.date - first.date
      let total_gain : ℚ := lastw.weight_kg - first.weight_kg
      let gmd : ℚ := if 0 < total_days then total_gain / (total_days : ℚ) else 0
      (gmd, lastw.weight_kg, lastw.date)
  let gmd := gla.1
  let last_weight := gla.2.1
  let last_weighting_date := gla.2.2
  -- status-aware part (lines 195-226)
  match a.sale with
  | some s =>
    let days_on_farm : Int := s.date - a.entry_date
    { average_daily_gain_kg := pyRound3 gmd
      last_weight_kg := pyRound2 last_weight
      last_weighting_date := last_weighting_date
      current_age_months := pyRound2 (a.entry_age + (days_on_farm : ℚ) / 30.44)
      forecasted_current_weight_kg := none
      status := "Sold"
      days_on_farm := some days_on_farm
      current_location_name := none
      current_location_id := none
      current_sublocation_name := none
      current_sublocation_id := none
      current_diet_type := none
      current_diet_intake := none }
  | none =>
    match a.death with
    | some dth =>
      -- the Dead branch computes days_on_farm but never stores it in the dict
      let days_on_farm : Int := dth.date - a.entry_date
      { average_daily_gain_kg := pyRound3 gmd
        last_weight_kg := pyRound2 last_weight
        last_weighting_date := last_weighting_date
        current_age_months := pyRound2 (a.entry_age + (days_on_farm : ℚ) / 30.44)
        forecasted_current_weight_kg := none
        status := "Dead"
        days_on_farm := none
        current_location_name := none
        current_location_id := none
        current_sublocation_name := none
        current_sublocation_id := none
        current_diet_type := none
        current_diet_intake := none }
    | none =>
      let days_on_farm : Int := today - a.entry_date
      let days_since_last_weight : Int := today - last_weighting_date
      let forecasted_gain : ℚ := (days_since_last_weight : ℚ) * gmd
      { average_daily_gain_kg := pyRound3 gmd
        last_weight_kg := pyRound2 last_weight
        last_weighting_date := last_weighting_date
        current_age_months := pyRound2 (a.entry_age + (days_on_farm : ℚ) / 30.44)
        forecasted_current_weight_kg := some (pyRound2 (last_weight + forecasted_gain))
        status := "Active"
        days_on_farm := some days_on_farm
        current_location_name := some cLocName
        current_location_id := cLocId
        current_sublocation_name := cSubName
        current_sublocation_id := cSubId
        current_diet_type := some cDietType
        current_diet_intake := cDietIntake }

/-- A row of the `location` table, reduced to the fields the KPI computations
read (`app/models.py`, class `Location`). -/
structure Location where
  id : Nat
  area_hectares : Option ℚ
deriving DecidableEq, Repr

/-- The `kpis` sub-dictionary attached to a location by
`calculate_location_kpis` (Flask) and `LocationSerializer.get_kpis` (Django). -/
structure LocKpis where
  animal_count : Nat
  capacity_rate_actual_ua_ha : Option ℚ
  capacity_rate_forecasted_ua_ha : Option ℚ
deriving DecidableEq, Repr

/-- The animal's most recent location, as the `animal_locations` dict of
`calculate_location_kpis` (`app/utils.py` lines 101-109) records it: the first
element of the stable date-descending sort of its location changes; animals
with no changes are absent from the dict (`none`). -/
def animal_current_location (a : Purchase) : Option Nat :=
  (latestByDateDesc (·.date) a.location_changes).map (·.location_id)

/-- The loop body of `calculate_location_kpis` for one location
(`app/utils.py` lines 127-163): occupants are the active animals whose latest
location change names this location; with a positive area both capacity rates
are computed from the occupants' `calculate_kpis` weights and the 450 kg
animal-unit constant, otherwise both rates are `None`.  `kpis()` of an active
occupant always forecasts a number, so summing the forecasts (which in Python
would raise on `None`) is total here via `Option.getD`. -/
def calculate_location_kpis_for (locName sublocName : Nat → String) (today : Date)
    (active_animals : List Purchase) (loc : Location) : LocKpis :=
  let occupants := active_animals.filter fun an => animal_current_location an = some loc.id
  match loc.area_hectares with
  | some area =>
    if 0 < area then
      let total_last_actual_weight :=
        (occupants.map fun an => (calculate_kpis locName sublocName an today).last_weight_kg).sum
      let total_forecasted_weight :=
        (occupants.map fun an =>
          ((calculate_kpis locName sublocName an today).forecasted_current_weight_kg).getD 0).sum
      { animal_count := occupants.length
        capacity_rate_actual_ua_ha := some (pyRound2 (total_last_actual_weight / 450 / area))
        capacity_rate_forecasted_ua_ha := some (pyRound2 (total_forecasted_weight / 450 / area)) }
    else
      { animal_count := occupants.length
        capacity_rate_actual_ua_ha := none
        capacity_rate_forecasted_ua_ha := none }
  | none =>
    { animal_count := occupants.length
      capacity_rate_actual_ua_ha := none
      capacity_rate_forecasted_ua_ha := none }

/-- The per-animal `forecasted_weight` expression of `get_location_summary`
(`app/routes.py` lines 1423-1426):
`W_last.weight_kg + gmd * (julianday('now') - julianday(entry_date))` with
`gmd = coalesce(total_gain / nullif(julianday(W_last.date) - julianday(entry_date), 0), 0)`.
The inner join on the last-weighing subquery drops animals without weighings
(`none`); the fractional time-of-day part of `julianday('now')` is immaterial
here and `now` is a whole day number.  Note the multiplier: days since the
ENTRY date, not days since the last weighing. -/
def get_location_summary_forecast (a : Purchase) (now : Date) : Option ℚ :=
  match latestByDateDesc (·.date) a.weightings with
  | none => none
  | some lw =>
    let total_days_for_gmd : Int := lw.date - a.entry_date
    let total_gain : ℚ := lw.weight_kg - a.entry_weight
    let gmd : ℚ := if total_days_for_gmd = 0 then 0 else total_gain / (total_days_for_gmd : ℚ)
    some (lw.weight_kg + gmd * ((now - a.entry_date : Int) : ℚ))

/-- The sale-KPI part of `Sale.to_dict` (`app/models.py` lines 295-340). -/
structure SaleDict where
  days_on_farm : Int
  exit_weight : ℚ
  exit_age_months : ℚ
  gmd_kg_day : ℚ
deriving DecidableEq, Repr

/-- `Sale.to_dict` (`app/models.py` lines 295-340), restricted to its computed
KPI fields.  `Weighting.query.filter_by(animal_id=..., date=self.date).first()`
is the first stored weighing dated exactly on the sale date; when there is
none, `exit_weight` is `0.0` and the GMD guard `days_on_farm > 0 and
exit_weight > 0` makes `gmd_kg_day` `0.0`. -/
def sale_to_dict (s : Sale) (a : Purchase) : SaleDict :=
  let exit_weighting := (a.weightings.filter fun w => w.date = s.date).head?
  let exit_weight : ℚ :=
    match exit_weighting with
    | some w => w.weight_kg
    | none => 0
  let days_on_farm : Int := s.date - a.entry_date
  let total_gain : ℚ := exit_weight - a.entry_weight
  let gmd_kg_day : ℚ :=
    if 0 < days_on_farm ∧ 0 < exit_weight then total_gain / (days_on_farm : ℚ) else 0
  let exit_age_months : ℚ := a.entry_age + (days_on_farm : ℚ) / 30.44
  { days_on_farm := days_on_farm
    exit_weight := exit_weight
    exit_age_months := pyRound2 exit_age_months
    gmd_kg_day := pyRound3 gmd_kg_day }

end Flask

namespace Django

/-- `Model.objects.filter(animal=...).order_by('-date', '-id').first()`:
the row maximizing (date, id) lexicographically, as used throughout
`backend_django` (`get_calculated_kpis`, `animal_search`,
`get_kpis_for_locations`, `lots_summary`).  Row ids are unique, so the
lexicographic maximum is the unique answer of the SQL `ORDER BY ... LIMIT 1`. -/
def latestByDateId {α : Type} (dateOf : α → Date) (idOf : α → Nat) (l : List α) : Option α :=
  l.foldl
    (fun acc e =>
      match acc with
      | none => some e
      | some b =>
        if dateOf b < dateOf e ∨ (dateOf e = dateOf b ∧ idOf b < idOf e) then some e
        else some b)
    none

/-- `AnimalMasterRecordSerializer.get_calculated_kpis`
(`backend_django/api/serializers.py` lines 572-632).  Differences from the
Flask `calculate_kpis` are kept: latest events resolved by `('-date', '-id')`;
current-state fields are always present and `None` when there is no event; the
GMD baseline is the entry date/weight and a single weighing already counts;
`days_on_farm` is stored for every status, including Dead. -/
def get_calculated_kpis (locName sublocName : Nat → String) (a : Purchase) (today : Date) : Kpis :=
  let latest_change := latestByDateId (·.date) (·.id) a.location_changes
  let latest_diet := latestByDateId (·.date) (·.id) a.diet_logs
  let cLocName : Option String := latest_change.map fun lc => locName lc.location_id
  let cLocId : Option Nat := latest_change.map (·.location_id)
  let cSubName : Option String :=
    match latest_change with
    | some lc => (lc.sublocation_id).map sublocName
    | none => none
  let cSubId : Option Nat :=
    match latest_change with
    | some lc => lc.sublocation_id
    | none => none
  let cDietType : Option String := latest_diet.map (·.diet_type)
  let cDietIntake : Option ℚ :=
    match latest_diet with
    | some dl => dl.daily_intake_percentage
    | none => none
  -- GMD and last weight (serializer lines 596-611)
  let sorted_weights :=
    List.insertionSort (fun x y : Weighting => x.date ≤ y.date) a.weightings
  let gla : ℚ × ℚ × Date :=
    match sorted_weights with
    | [] => (0, a.entry_weight, a.entry_date)
    | first :: rest =>
      let lastw := pyLast first rest
      let total_days : Int := lastw.date - a.entry_date
      let total_gain : ℚ := lastw.weight_kg - a.entry_weight
      let gmd : ℚ := if 0 < total_days then total_gain / (total_days : ℚ) else 0
      (gmd, lastw.weight_kg, lastw.date)
  let gmd := gla.1
  let last_weight := gla.2.1
  let last_weighting_date := gla.2.2
  let base : Kpis :=
    { average_daily_gain_kg := pyRound3 gmd
      last_weight_kg := pyRound2 last_weight
      last_weighting_date := last_weighting_date
      current_age_months := 0
      forecasted_current_weight_kg := none
      status := ""
      days_on_farm := none
      current_location_name := cLocName
      current_location_id := cLocId
      current_sublocation_name := cSubName
      current_sublocation_id := cSubId
      current_diet_type := cDietType
      current_diet_intake := cDietIntake }
  match a.sale with
  | some s =>
    let days_on_farm : Int := s.date - a.entry_date
    { base with
      current_age_months := pyRound2 (a.entry_age + (days_on_farm : ℚ) / 30.44)
      forecasted_current_weight_kg := none
      status := "Sold"
      days_on_farm := some days_on_farm }
  | none =>
    match a.death with
    | some dth =>
      let days_on_farm : Int := dth.date - a.entry_date
      { base with
        current_age_months := pyRound2 (a.entry_age + (days_on_farm : ℚ) / 30.44)
        forecasted_current_weight_kg := none
        status := "Dead"
        days_on_farm := some days_on_farm }
    | none =>
      let days_on_farm : Int := today - a.entry_date
      let days_since_last_weight : Int := today - last_weighting_date
      { base with
        current_age_months := pyRound2 (a.entry_age + (days_on_farm : ℚ) / 30.44)
        forecasted_current_weight_kg :=
          some (pyRound2 (last_weight + (days_since_last_weight : ℚ) * gmd))
        status := "Active"
        days_on_farm := some days_on_farm }

/-- The `forecasted_current_weight_kg` annotation of `animal_search`
(`backend_django/api/views.py` lines 818-855):
`last_weight_kg + (gmd * days_on_farm)` where `days_on_farm` counts from the
ENTRY date and `gmd = (last_weight_kg - entry_weight) / NullIf(last_date -
entry_date, 0)`.  SQL `NULL` propagates: with no weighing the subqueries are
`NULL`, and with the last weighing on the entry date the `NullIf` makes the
GMD `NULL`, so the whole forecast is `NULL` (`none`) even though only active
animals reach this query.  `now` is the whole-day part of SQL `Now()`. -/
def animal_search_forecast (a : Purchase) (now : Date) : Option ℚ :=
  match latestByDateId (·.date) (·.id) a.weightings with
  | none => none
  | some lw =>
    let days_on_farm : Int := now - a.entry_date
    let days_for_gmd : Int := lw.date - a.entry_date
    if days_for_gmd = 0 then none
    else
      some (lw.weight_kg +
        ((lw.weight_kg - a.entry_weight) / (days_for_gmd : ℚ)) * (days_on_farm : ℚ))

/-- One value of the `location_kpis` dict built by `get_kpis_for_locations`
(`backend_django/api/views.py` lines 132-170). -/
structure LocTotals where
  animal_count : Nat
  total_actual : ℚ
  total_forecasted : ℚ
deriving DecidableEq, Repr

/-- The accumulation loop of `get_kpis_for_locations`
(`backend_django/api/views.py` lines 149-170) restricted to one location id:
every active animal whose latest location change (by `('-date', '-id')`) names
this location contributes its last weight and its forecast
`last_w + gmd * days_since_weigh` with `gmd` measured from the entry
date/weight.  Python's `animal.last_weight or animal.entry_weight` falls back
on the entry value both for `None` and for a (never seeded) weight of `0.0`. -/
def kpis_for_location (today : Date) (active_animals : List Purchase) (locId : Nat) : LocTotals :=
  active_animals.foldl
    (fun t a =>
      if (latestByDateId (·.date) (·.id) a.location_changes).map (·.location_id) = some locId then
        let lw := latestByDateId (·.date) (·.id) a.weightings
        let last_w : ℚ :=
          match lw with
          | some w => if w.weight_kg = 0 then a.entry_weight else w.weight_kg
          | none => a.entry_weight
        let last_w_date : Date :=
          match lw with
          | some w => w.date
          | none => a.entry_date
        let days_for_gmd : Int := last_w_date - a.entry_date
        let gain : ℚ := last_w - a.entry_weight
        let gmd : ℚ := if 0 < days_for_gmd then gain / (days_for_gmd : ℚ) else 0
        let days_since_weigh : Int := today - last_w_date
        let forecasted_w : ℚ := last_w + gmd * (days_since_weigh : ℚ)
        { animal_count := t.animal_count + 1
          total_actual := t.total_actual + last_w
          total_forecasted := t.total_forecasted + forecasted_w }
      else t)
    ⟨0, 0, 0⟩

/-- `LocationSerializer.get_kpis` (`backend_django/api/serializers.py` lines
45-66).  `kpi_data` is the entry of the `location_kpis` context dict for this
location, `none` when the location had no occupants and hence no dict entry
(the code then uses the zero default).  Each capacity rate is computed only
when the area is positive AND the corresponding weight total is positive;
otherwise it stays `None`. -/
def location_get_kpis (area_hectares : Option ℚ) (kpi_data : Option LocTotals) : Flask.LocKpis :=
  let d := kpi_data.getD ⟨0, 0, 0⟩
  match area_hectares with
  | some area =>
    if 0 < area then
      { animal_count := d.animal_count
        capacity_rate_actual_ua_ha :=
          if 0 < d.total_actual then some (pyRound2 (d.total_actual / 450 / area)) else none
        capacity_rate_forecasted_ua_ha :=
          if 0 < d.total_forecasted then some (pyRound2 (d.total_forecasted / 450 / area)) else none }
    else
      { animal_count := d.animal_count
        capacity_rate_actual_ua_ha := none
        capacity_rate_forecasted_ua_ha := none }
  | none =>
    { animal_count := d.animal_count
      capacity_rate_actual_ua_ha := none
      capacity_rate_forecasted_ua_ha := none }

/-- The `_current_age_months` per-animal annotation of `lots_summary`
(`backend_django/api/views.py` lines 900-946):
`entry_age + days_on_farm / 30.44` with `days_on_farm` in whole days
(`TruncDate(Now()) - entry_date`), unrounded. -/
def current_age_months_annotation (a : Purchase) (today : Date) : ℚ :=
  a.entry_age + ((today - a.entry_date : Int) : ℚ) / 30.44

/-- The `average_age_months = Avg('_current_age_months')` aggregate of
`lots_summary` (`backend_django/api/views.py` lines 927-944) over the active
animals of one lot. -/
def lots_summary_average_age_months (animals : List Purchase) (today : Date) : ℚ :=
  (animals.map fun a => current_age_months_annotation a today).sum / (animals.length : ℚ)

/-- `SaleSerializer.get_exit_weight` (`backend_django/api/serializers.py`
lines 403-406): the first weighing dated exactly on the sale date, `None`
otherwise. -/
def sale_get_exit_weight (s : Sale) (a : Purchase) : Option ℚ :=
  ((a.weightings.filter fun w => w.date = s.date).head?).map (·.weight_kg)

/-- `SaleSerializer.get_gmd_kg_day` (`backend_django/api/serializers.py`
lines 408-414): rounded total gain per day when `days > 0` and an exit
weighing exists, else `0.0`. -/
def sale_get_gmd_kg_day (s : Sale) (a : Purchase) : ℚ :=
  let days : Int := s.date - a.entry_date
  match sale_get_exit_weight s a with
  | some w => if 0 < days then pyRound3 ((w - a.entry_weight) / (days : ℚ)) else 0
  | none => 0

end Django

section SortFacts

instance : IsTotal WEvent (fun x y : WEvent => x.date ≤ y.date) :=
  ⟨fun a b => Int.le_total a.date b.date⟩

instance : IsTrans WEvent (fun x y : WEvent => x.date ≤ y.date) :=
  ⟨fun _ _ _ h h2 => Int.le_trans h h2⟩

instance : IsRefl WEvent (fun x y : WEvent => x.date ≤ y.date) :=
  ⟨fun a => Int.le_refl a.date⟩

/-- The sorted, deduplicated series is ordered by date. -/
lemma sorted_events_sorted (a : Purchase) :
    (sorted_events a).Sorted (fun x y : WEvent => x.date ≤ y.date) :=
  List.sorted_insertionSort _ _

/-- Dates are monotone along the sorted series. -/
lemma sorted_events_date_mono (a : Purchase) {i j : Nat} (hij : i ≤ j)
    (hj : j < (sorted_events a).length) :
    ((sorted_events a).get ⟨i, lt_of_le_of_lt hij hj⟩).date ≤
      ((sorted_events a).get ⟨j, hj⟩).date := by
  rcases Nat.eq_or_lt_of_le hij with rfl | hlt
  · exact le_refl _
  · exact (sorted_events_sorted a).rel_get_of_lt hlt

lemma dedupSeen_length_pos (seen : List WEvent) (x : WEvent) (xs : List WEvent)
    (hx : x ∉ seen) : 0 < (dedupSeen seen (x :: xs)).length := by
  simp [dedupSeen, hx]

/-- The pipeline always yields a nonempty series: the entry anchor is always
injected. -/
lemma sorted_events_ne_nil (a : Purchase) : sorted_events a ≠ [] := by
  have h1 : 0 < (dedupEvents (all_weight_events a)).length := by
    simp only [dedupEvents, all_weight_events]
    exact dedupSeen_length_pos [] _ _ (by simp)
  have h2 : (sorted_events a).length = (dedupEvents (all_weight_events a)).length :=
    List.length_insertionSort _ _
  exact List.ne_nil_of_length_pos (h2 ▸ h1)

/-- With a known head, the weight history is the plain map over indices. -/
lemma weight_history_eq (a : Purchase) (hd : WEvent)
    (hhead : (sorted_events a).head? = some hd) :
    calculate_weight_history_with_gmd a =
      (List.range (sorted_events a).length).map fun i =>
        { date := ((sorted_events a).getD i hd).date
          weight_kg := pyRound2 ((sorted_events a).getD i hd).weight_kg
          gmd_accumulated_grams := pyRound3 (gmd_accumulated hd ((sorted_events a).getD i hd))
          gmd_period_grams := pyRound3 (gmd_period_at (sorted_events a) hd i) } := by
  simp only [calculate_weight_history_with_gmd]
  split
  · next heq => rw [hhead] at heq; cases heq
  · next first heq => rw [hhead] at heq; injection heq with h; subst h; rfl

lemma length_weight_history (a : Purchase) :
    (calculate_weight_history_with_gmd a).length = (sorted_events a).length := by
  simp only [calculate_weight_history_with_gmd]
  split
  · next heq => simp [List.head?_eq_none_iff.mp heq]
  · next first heq => simp

/-- Zero-delta form versus the code's positivity guard: equal whenever the
day delta is nonnegative. -/
lemma guard_shuffle (pd cd : Int) (g : ℚ) (hle : pd ≤ cd) :
    (if 0 < cd - pd then g / ((cd - pd : Int) : ℚ) else 0) =
      (if cd = pd then 0 else g / ((cd - pd : Int) : ℚ)) := by
  rcases eq_or_lt_of_le hle with heq | hlt
  · subst heq; simp
  · have h1 : (0 : Int) < cd - pd := by omega
    have h2 : ¬ cd = pd := by omega
    simp [h1, h2]

end SortFacts

/-- Scenario A/B of the specification: entry 200 kg on day 0, weighings 220 kg
on day 10 and 235 kg on day 20, still active. -/
def scenarioB : Purchase :=
  { id := 1, ear_tag := "B-001", lot := 1, entry_date := 0, entry_weight := 200,
    sex := "M", entry_age := 10, weightings := [⟨1, 10, 220⟩, ⟨2, 20, 235⟩],
    location_changes := [], diet_logs := [], sale := none, death := none }

/-- C1.  Along the weight history of any animal (entry anchor injected,
deduplicated, sorted ascending by date), point `i` carries
`gmd_accumulated = (weight[i] - weight[0]) / days(date[i] - date[0])` (0 on a
zero day delta) and, for `i > 0`,
`gmd_period = (weight[i] - weight[i-1]) / days(date[i] - date[i-1])` (0 at
`i = 0` or on a zero day delta), both rounded to 3 decimals as the code emits
them; and on scenario B (entry 200 kg at day 0, 220 kg at day 10, 235 kg at
day 20) the last point has accumulated GMD 1.75 and period GMD 1.5. -/
theorem C1_weight_history_gmd_formulas :
    (∀ (a : Purchase) (i : Fin (calculate_weight_history_with_gmd a).length),
      ∃ hd : WEvent, (sorted_events a).head? = some hd ∧
        (calculate_weight_history_with_gmd a).get i =
          { date := ((sorted_events a).getD i.val hd).date
            weight_kg := pyRound2 ((sorted_events a).getD i.val hd).weight_kg
            gmd_accumulated_grams := pyRound3
              (if ((sorted_events a).getD i.val hd).date = hd.date then 0
               else (((sorted_events a).getD i.val hd).weight_kg - hd.weight_kg) /
                 ((((sorted_events a).getD i.val hd).date - hd.date : Int) : ℚ))
            gmd_period_grams := pyRound3
              (if i.val = 0 then 0
               else if ((sorted_events a).getD i.val hd).date =
                   ((sorted_events a).getD (i.val - 1) hd).date then 0
               else (((sorted_events a).getD i.val hd).weight_kg -
                   ((sorted_events a).getD (i.val - 1) hd).weight_kg) /
                 ((((sorted_events a).getD i.val hd).date -
                   ((sorted_events a).getD (i.val - 1) hd).date : Int) : ℚ)) }) ∧
    calculate_weight_history_with_gmd scenarioB =
      [⟨0, 200, 0, 0⟩, ⟨10, 220, 2, 2⟩, ⟨20, 235, 1.75, 1.5⟩] := by
  constructor
  · intro a i
    have hlen := length_weight_history a
    have hi : i.val < (sorted_events a).length := hlen ▸ i.isLt
    have hprevlt : i.val - 1 < (sorted_events a).length :=
      Nat.lt_of_le_of_lt (Nat.sub_le _ _) hi
    obtain ⟨hd, tl, hs⟩ := List.exists_cons_of_ne_nil (sorted_events_ne_nil a)
    have hhead : (sorted_events a).head? = some hd := by rw [hs]; rfl
    refine ⟨hd, hhead, ?_⟩
    have hcur : (sorted_events a).getD i.val hd = (sorted_events a).get ⟨i.val, hi⟩ := by
      simp [List.getD_eq_getElem?_getD, List.getElem?_eq_getElem hi]
    have hprev : (sorted_events a).getD (i.val - 1) hd =
        (sorted_events a).get ⟨i.val - 1, hprevlt⟩ := by
      simp [List.getD_eq_getElem?_getD, List.getElem?_eq_getElem hprevlt]
    have hd0 : hd = (sorted_events a).get ⟨0, Nat.lt_of_le_of_lt (Nat.zero_le _) hi⟩ := by
      simp [hs]
    have hfirst_le : hd.date ≤ ((sorted_events a).getD i.val hd).date := by
      rw [hcur, hd0]; exact sorted_events_date_mono a (Nat.zero_le _) hi
    have hprev_le : ((sorted_events a).getD (i.val - 1) hd).date ≤
        ((sorted_events a).getD i.val hd).date := by
      rw [hcur, hprev]; exact sorted_events_date_mono a (Nat.sub_le _ _) hi
    have hmain : (calculate_weight_history_with_gmd a).get i =
        { date := ((sorted_events a).getD i.val hd).date
          weight_kg := pyRound2 ((sorted_events a).getD i.val hd).weight_kg
          gmd_accumulated_grams :=
            pyRound3 (gmd_accumulated hd ((sorted_events a).getD i.val hd))
          gmd_period_grams := pyRound3 (gmd_period_at (sorted_events a) hd i.val) } := by
      rw [List.get_eq_getElem]
      have hrw := weight_history_eq a hd hhead
      simp only [hrw, List.getElem_map, List.getElem_range]
    rw [hmain]
    have hacc : gmd_accumulated hd ((sorted_events a).getD i.val hd) =
        (if ((sorted_events a).getD i.val hd).date = hd.date then 0
         else (((sorted_events a).getD i.val hd).weight_kg - hd.weight_kg) /
           ((((sorted_events a).getD i.val hd).date - hd.date : Int) : ℚ)) := by
      simp only [gmd_accumulated]
      exact guard_shuffle hd.date ((sorted_events a).getD i.val hd).date _ hfirst_le
    have hper : gmd_period_at (sorted_events a) hd i.val =
        (if i.val = 0 then 0
         else if ((sorted_events a).getD i.val hd).date =
             ((sorted_events a).getD (i.val - 1) hd).date then 0
         else (((sorted_events a).getD i.val hd).weight_kg -
             ((sorted_events a).getD (i.val - 1) hd).weight_kg) /
           ((((sorted_events a).getD i.val hd).date -
             ((sorted_events a).getD (i.val - 1) hd).date : Int) : ℚ)) := by
      simp only [gmd_period_at]
      rcases Nat.eq_zero_or_pos i.val with h0 | hposi
      · simp [h0]
      · have h0 : ¬ i.val = 0 := Nat.pos_iff_ne_zero.mp hposi
        simp only [h0, if_false]
        exact guard_shuffle ((sorted_events a).getD (i.val - 1) hd).date
          ((sorted_events a).getD i.val hd).date _ hprev_le
    rw [hacc, hper]
  · with_unfolding_all decide

/-- The per-period gains `weight[i] - weight[i-1]` (for `i > 0`) along a
weighing series, the numerators of the code's `gmd_period` values. -/
def period_gains : List WEvent → List ℚ
  | [] => []
  | [_] => []
  | x :: y :: rest => (y.weight_kg - x.weight_kg) :: period_gains (y :: rest)

lemma pyLast_irrel (l : List α) (a f g : α) : pyLast f (a :: l) = pyLast g (a :: l) := by
  induction l generalizing a with
  | nil => rfl
  | cons b bs ih => simp only [pyLast]; exact ih b

lemma pyLast_cons (x y : WEvent) (ys : List WEvent) :
    pyLast x (y :: ys) = pyLast y ys := by
  cases ys with
  | nil => rfl
  | cons z zs => simp only [pyLast]; exact pyLast_irrel zs z x y

lemma period_gains_sum (l : List WEvent) (x : WEvent) :
    (period_gains (x :: l)).sum = (pyLast x l).weight_kg - x.weight_kg := by
  induction l generalizing x with
  | nil => simp [period_gains, pyLast]
  | cons y ys ih =>
    rw [period_gains, List.sum_cons, ih y, pyLast_cons]
    ring

/-- C8.  Along the sorted, deduplicated weighing series produced by the
weight-history computation, the per-period gains telescope: their sum is
`weight[last] - weight[0]`. -/
theorem C8_period_gains_telescope :
    ∀ a : Purchase, ∃ (hd : WEvent) (tl : List WEvent),
      sorted_events a = hd :: tl ∧
        (period_gains (sorted_events a)).sum = (pyLast hd tl).weight_kg - hd.weight_kg := by
  intro a
  obtain ⟨hd, tl, hs⟩ := List.exists_cons_of_ne_nil (sorted_events_ne_nil a)
  exact ⟨hd, tl, hs, by rw [hs, period_gains_sum]⟩

/-- C2, evaluated at the failing input.  For scenario B (entry 200 kg day 0,
weighings 220 kg day 10 and 235 kg day 20) as of day 30:
`Purchase.calculate_kpis` follows the specified formula
`last_weight + gmd_used * days(asOf - last_weighing_date) = 235 + 1.5*10 = 250`,
but the re-derived forecasts of `animal_search` (Django) and
`get_location_summary` (Flask routes) compute the GMD from the entry anchor and
multiply it by the days since the ENTRY date, yielding
`235 + 1.75*30 = 287.5 ≠ 250`. -/
theorem C2_forecast_entry_anchor_bug :
    (Flask.calculate_kpis (fun _ => "") (fun _ => "") scenarioB 30).forecasted_current_weight_kg
        = some 250 ∧
    (235 + (3 / 2 : ℚ) * 10) = 250 ∧
    Django.animal_search_forecast scenarioB 30 = some 287.5 ∧
    Flask.get_location_summary_forecast scenarioB 30 = some 287.5 ∧
    (287.5 : ℚ) ≠ 250 := by
  with_unfolding_all decide

/-- A dead animal: entry day 0 at 200 kg, age 10 months, death on day 30. -/
def deadAnimal : Purchase :=
  { id := 2, ear_tag := "D-001", lot := 1, entry_date := 0, entry_weight := 200,
    sex := "F", entry_age := 10, weightings := [⟨3, 10, 220⟩],
    location_changes := [], diet_logs := [], sale := none, death := some ⟨1, 30⟩ }

/-- An active animal with no recorded weighings, location changes or diet
logs. -/
def noEventsAnimal : Purchase :=
  { id := 3, ear_tag := "N-001", lot := 2, entry_date := 0, entry_weight := 200,
    sex := "M", entry_age := 12, weightings := [],
    location_changes := [], diet_logs := [], sale := none, death := none }

/-- An active animal with two location changes recorded on the same date:
id 1 to location 100 first, then id 2 to location 200. -/
def tieAnimal : Purchase :=
  { id := 4, ear_tag := "T-001", lot := 3, entry_date := 0, entry_weight := 200,
    sex := "M", entry_age := 12, weightings := [],
    location_changes := [⟨1, 5, 100, none⟩, ⟨2, 5, 200, none⟩],
    diet_logs := [], sale := none, death := none }

/-- An active animal entered at age 10 months on day 0 (for the lot-average
counterexample). -/
def lotAnimal : Purchase :=
  { id := 5, ear_tag := "L-001", lot := 4, entry_date := 0, entry_weight := 200,
    sex := "F", entry_age := 10, weightings := [],
    location_changes := [], diet_logs := [], sale := none, death := none }

/-- An animal sold on day 30 with its only weighing on day 10, so no weighing
falls exactly on the sale date. -/
def soldAnimal : Purchase :=
  { id := 6, ear_tag := "S-001", lot := 5, entry_date := 0, entry_weight := 200,
    sex := "M", entry_age := 14, weightings := [⟨4, 10, 220⟩],
    location_changes := [], diet_logs := [], sale := some ⟨1, 30, 1000⟩, death := none }

/-- C3 (amended).  For an animal with a death event and no sale, both
generations report status `Dead`, age at the death date
(`entry_age + days_on_farm / 30.44` with `days_on_farm = death.date -
entry_date`) and a null forecast, exactly as in the Sold case; but only the
Django serializer stores `days_on_farm` in the record — the Flask
`calculate_kpis` Dead branch computes it and never writes the key. -/
theorem C3_dead_kpis_match_sold_formulas :
    ∀ (locName sublocName : Nat → String) (a : Purchase) (today : Date) (dth : Death),
      a.sale = none → a.death = some dth →
      ((Flask.calculate_kpis locName sublocName a today).status = "Dead" ∧
       (Flask.calculate_kpis locName sublocName a today).current_age_months =
         pyRound2 (a.entry_age + ((dth.date - a.entry_date : Int) : ℚ) / 30.44) ∧
       (Flask.calculate_kpis locName sublocName a today).forecasted_current_weight_kg = none ∧
       (Flask.calculate_kpis locName sublocName a today).days_on_farm = none) ∧
      ((Django.get_calculated_kpis locName sublocName a today).status = "Dead" ∧
       (Django.get_calculated_kpis locName sublocName a today).current_age_months =
         pyRound2 (a.entry_age + ((dth.date - a.entry_date : Int) : ℚ) / 30.44) ∧
       (Django.get_calculated_kpis locName sublocName a today).forecasted_current_weight_kg
         = none ∧
       (Django.get_calculated_kpis locName sublocName a today).days_on_farm =
         some (dth.date - a.entry_date)) := by
  intro locName sublocName a today dth hsale hdeath
  constructor
  · simp [Flask.calculate_kpis, hsale, hdeath]
  · simp [Django.get_calculated_kpis, hsale, hdeath]

/-- Witness for C3: the dead animal (entry day 0 at age 10 months, death day
30), evaluated as of day 40. -/
theorem C3_dead_kpis_witness :
    (Flask.calculate_kpis (fun _ => "") (fun _ => "") deadAnimal 40).status = "Dead" ∧
    (Flask.calculate_kpis (fun _ => "") (fun _ => "") deadAnimal 40).current_age_months
      = 10.99 ∧
    (Flask.calculate_kpis (fun _ => "") (fun _ => "") deadAnimal 40).forecasted_current_weight_kg
      = none ∧
    (Flask.calculate_kpis (fun _ => "") (fun _ => "") deadAnimal 40).days_on_farm = none ∧
    (Django.get_calculated_kpis (fun _ => "") (fun _ => "") deadAnimal 40).status = "Dead" ∧
    (Django.get_calculated_kpis (fun _ => "") (fun _ => "") deadAnimal 40).current_age_months
      = 10.99 ∧
    (Django.get_calculated_kpis (fun _ => "") (fun _ => "") deadAnimal 40).forecasted_current_weight_kg
      = none ∧
    (Django.get_calculated_kpis (fun _ => "") (fun _ => "") deadAnimal 40).days_on_farm
      = some 30 := by
  have h := C3_dead_kpis_match_sold_formulas (fun _ => "") (fun _ => "")
    deadAnimal 40 ⟨1, 30⟩ rfl rfl
  exact ⟨h.1.1, h.1.2.1.trans (by with_unfolding_all decide), h.1.2.2.1, h.1.2.2.2,
    h.2.1, h.2.2.1.trans (by with_unfolding_all decide), h.2.2.2.1,
    h.2.2.2.2.trans (by with_unfolding_all decide)⟩

/-- Counterexample to C3 as stated: the Flask per-animal KPI record of a dead
animal carries no `days_on_farm` at all (the key is omitted), while the claim
requires `days_on_farm = death.date - entry_date = 30`. -/
theorem C3_counterexample_flask_omits_days_on_farm :
    deadAnimal.sale = none ∧ deadAnimal.death = some ⟨1, 30⟩ ∧
    (Flask.calculate_kpis (fun _ => "") (fun _ => "") deadAnimal 40).status = "Dead" ∧
    (Flask.calculate_kpis (fun _ => "") (fun _ => "") deadAnimal 40).days_on_farm = none ∧
    (none : Option Int) ≠ some 30 := by
  with_unfolding_all decide

lemma latestByDateId_aux {α : Type} (dateOf : α → Int) (idOf : α → Nat) :
    ∀ (l : List α) (b r : α),
      (l.foldl
        (fun acc e =>
          match acc with
          | none => some e
          | some b' =>
            if dateOf b' < dateOf e ∨ (dateOf e = dateOf b' ∧ idOf b' < idOf e) then some e
            else some b')
        (some b)) = some r →
      (r = b ∨ r ∈ l) ∧
      (dateOf b ≤ dateOf r ∧ (dateOf b = dateOf r → idOf b ≤ idOf r)) ∧
      (∀ x ∈ l, dateOf x ≤ dateOf r ∧ (dateOf x = dateOf r → idOf x ≤ idOf r)) := by
  intro l
  induction l with
  | nil =>
    intro b r h
    simp only [List.foldl_nil, Option.some.injEq] at h
    subst h
    exact ⟨Or.inl rfl, ⟨le_refl _, fun _ => le_refl _⟩, by simp⟩
  | cons e l ih =>
    intro b r h
    rw [List.foldl_cons] at h
    have hstep : (match some b with
        | none => some e
        | some b' =>
          if dateOf b' < dateOf e ∨ (dateOf e = dateOf b' ∧ idOf b' < idOf e) then some e
          else some b') =
        (if dateOf b < dateOf e ∨ (dateOf e = dateOf b ∧ idOf b < idOf e) then some e
         else some b) := rfl
    rw [hstep] at h
    by_cases hC : dateOf b < dateOf e ∨ (dateOf e = dateOf b ∧ idOf b < idOf e)
    · rw [if_pos hC] at h
      obtain ⟨hmem, hbound, hall⟩ := ih e r h
      obtain ⟨h1, h2⟩ := hbound
      have hmem2 : r = b ∨ r ∈ e :: l := by
        rcases hmem with rfl | hm
        · exact Or.inr (List.mem_cons_self _ _)
        · exact Or.inr (List.mem_cons_of_mem _ hm)
      have hb : dateOf b ≤ dateOf r ∧ (dateOf b = dateOf r → idOf b ≤ idOf r) := by
        rcases hC with hc | hc
        · exact ⟨by omega, fun hde => by omega⟩
        · obtain ⟨hce, hci⟩ := hc
          refine ⟨by omega, fun hde => ?_⟩
          have h3 := h2 (by omega)
          omega
      refine ⟨hmem2, hb, ?_⟩
      intro x hx
      rcases List.mem_cons.mp hx with rfl | hm
      · exact ⟨h1, h2⟩
      · exact hall x hm
    · rw [if_neg hC] at h
      obtain ⟨hmem, hbound, hall⟩ := ih b r h
      obtain ⟨h1, h2⟩ := hbound
      have hmem2 : r = b ∨ r ∈ e :: l := by
        rcases hmem with rfl | hm
        · exact Or.inl rfl
        · exact Or.inr (List.mem_cons_of_mem _ hm)
      refine ⟨hmem2, ⟨h1, h2⟩, ?_⟩
      intro x hx
      rcases List.mem_cons.mp hx with rfl | hm
      · push_neg at hC
        obtain ⟨hc1, hc2⟩ := hC
        refine ⟨by omega, fun hde => ?_⟩
        have h4 := h2 (by omega)
        have h5 := hc2 (by omega)
        omega
      · exact hall x hm

/-- C4 (amended).  The Django generation resolves "current state" with
`order_by('-date', '-id').first()`: the returned event is in the list, carries
the maximal date, and among the events of that date the maximal (most recently
recorded) id.  (The Flask generation breaks date ties the other way — see the
counterexample.) -/
theorem C4_django_latest_max_date_then_max_id :
    ∀ {α : Type} (dateOf : α → Int) (idOf : α → Nat) (l : List α) (e : α),
      Django.latestByDateId dateOf idOf l = some e →
      e ∈ l ∧ ∀ x ∈ l, dateOf x ≤ dateOf e ∧ (dateOf x = dateOf e → idOf x ≤ idOf e) := by
  intro α dateOf idOf l e h
  cases l with
  | nil => simp [Django.latestByDateId] at h
  | cons x xs =>
    simp only [Django.latestByDateId, List.foldl_cons] at h
    obtain ⟨hmem, hbound, hall⟩ := latestByDateId_aux dateOf idOf xs x e h
    refine ⟨?_, ?_⟩
    · rcases hmem with rfl | hm
      · exact List.mem_cons_self _ _
      · exact List.mem_cons_of_mem _ hm
    · intro y hy
      rcases List.mem_cons.mp hy with rfl | hm
      · exact hbound
      · exact hall y hm

/-- Witness for C4: on two location changes sharing date 5 with ids 1 and 2,
the Django resolver returns the id-2 event, and every event in the list is
bounded by its (date, id). -/
theorem C4_django_latest_witness :
    ((⟨2, 5, 200, none⟩ : LocationChange) ∈
      [(⟨1, 5, 100, none⟩ : LocationChange), ⟨2, 5, 200, none⟩]) ∧
    ∀ x ∈ [(⟨1, 5, 100, none⟩ : LocationChange), ⟨2, 5, 200, none⟩],
      x.date ≤ (5 : Int) ∧ (x.date = (5 : Int) → x.id ≤ 2) :=
  C4_django_latest_max_date_then_max_id
    (fun lc : LocationChange => lc.date) (fun lc : LocationChange => lc.id)
    [⟨1, 5, 100, none⟩, ⟨2, 5, 200, none⟩] ⟨2, 5, 200, none⟩
    (by with_unfolding_all decide)

/-- Counterexample to C4 as stated: with two changes on the same date (id 1 to
location 100 recorded first, id 2 to location 200 recorded second), the Flask
`calculate_kpis` reports location 100 — Python's stable descending sort keeps
the EARLIEST-recorded event first on a date tie, not the highest id. -/
theorem C4_counterexample_flask_tie_earliest_wins :
    tieAnimal.location_changes = [⟨1, 5, 100, none⟩, ⟨2, 5, 200, none⟩] ∧
    (Flask.calculate_kpis (fun _ => "") (fun _ => "") tieAnimal 10).current_location_id
      = some 100 ∧
    (some 100 : Option Nat) ≠ some 200 := by
  with_unfolding_all decide

/-- An active animal occupying location 7 (change on day 2), one weighing. -/
def occupantAnimal : Purchase :=
  { id := 7, ear_tag := "O-001", lot := 6, entry_date := 0, entry_weight := 200,
    sex := "M", entry_age := 11, weightings := [⟨5, 10, 220⟩],
    location_changes := [⟨3, 2, 7, none⟩], diet_logs := [], sale := none, death := none }

/-- C5 (amended).  In both generations the capacity rates are `null` whenever
the location's area is missing or ≤ 0, regardless of how many animals occupy
it (`animal_count` is still reported).  With a positive area the Flask
`calculate_location_kpis` always reports
`round((Σ weights / 450) / area, 2)` for both rates, while the Django
`LocationSerializer.get_kpis` reports a rate only when the corresponding
weight total is positive and `null` otherwise. -/
theorem C5_capacity_rate_null_on_missing_area :
    (∀ (locName sublocName : Nat → String) (today : Date) (active : List Purchase)
        (loc : Flask.Location),
      (∀ ar : ℚ, loc.area_hectares = some ar → ar ≤ 0) →
      Flask.calculate_location_kpis_for locName sublocName today active loc =
        { animal_count :=
            (active.filter fun an => Flask.animal_current_location an = some loc.id).length
          capacity_rate_actual_ua_ha := none
          capacity_rate_forecasted_ua_ha := none }) ∧
    (∀ (locName sublocName : Nat → String) (today : Date) (active : List Purchase)
        (loc : Flask.Location) (ar : ℚ),
      loc.area_hectares = some ar → 0 < ar →
      Flask.calculate_location_kpis_for locName sublocName today active loc =
        { animal_count :=
            (active.filter fun an => Flask.animal_current_location an = some loc.id).length
          capacity_rate_actual_ua_ha := some (pyRound2
            ((((active.filter fun an => Flask.animal_current_location an = some loc.id).map
                fun an => (Flask.calculate_kpis locName sublocName an today).last_weight_kg).sum
              / 450) / ar))
          capacity_rate_forecasted_ua_ha := some (pyRound2
            ((((active.filter fun an => Flask.animal_current_location an = some loc.id).map
                fun an =>
                  ((Flask.calculate_kpis locName sublocName an today).forecasted_current_weight_kg).getD
                    0).sum / 450) / ar)) }) ∧
    (∀ (area : Option ℚ) (d : Option Django.LocTotals),
      (∀ ar : ℚ, area = some ar → ar ≤ 0) →
      Django.location_get_kpis area d =
        { animal_count := (d.getD ⟨0, 0, 0⟩).animal_count
          capacity_rate_actual_ua_ha := none
          capacity_rate_forecasted_ua_ha := none }) ∧
    (∀ (ar : ℚ) (d : Option Django.LocTotals), 0 < ar →
      Django.location_get_kpis (some ar) d =
        { animal_count := (d.getD ⟨0, 0, 0⟩).animal_count
          capacity_rate_actual_ua_ha :=
            if 0 < (d.getD ⟨0, 0, 0⟩).total_actual then
              some (pyRound2 (((d.getD ⟨0, 0, 0⟩).total_actual / 450) / ar))
            else none
          capacity_rate_forecasted_ua_ha :=
            if 0 < (d.getD ⟨0, 0, 0⟩).total_forecasted then
              some (pyRound2 (((d.getD ⟨0, 0, 0⟩).total_forecasted / 450) / ar))
            else none }) := by
  refine ⟨?_, ?_, ?_, ?_⟩
  · intro locName sublocName today active loc h
    cases harea : loc.area_hectares with
    | none => simp [Flask.calculate_location_kpis_for, harea]
    | some ar =>
      have hle : ¬ (0 : ℚ) < ar := not_lt.mpr (h ar harea)
      simp [Flask.calculate_location_kpis_for, harea, hle]
  · intro locName sublocName today active loc ar harea hpos
    simp [Flask.calculate_location_kpis_for, harea, hpos]
  · intro area d h
    cases harea : area with
    | none => simp [Django.location_get_kpis]
    | some ar =>
      have hle : ¬ (0 : ℚ) < ar := not_lt.mpr (h ar harea)
      simp [Django.location_get_kpis, hle]
  · intro ar d hpos
    simp [Django.location_get_kpis, hpos]

/-- Witness for C5, with definitions evaluated: a zero-area location holding
one occupant gets `animal_count = 1` and null rates; a 2-hectare location with
the same occupant (last weight 200 kg, forecast 200 kg) gets
`round((200/450)/2, 2) = 0.22` for both rates; on the Django side a missing
dict entry with no area yields null rates, and a 2-hectare location with
totals (900, 0) yields an actual rate of 1.0 and a null forecast rate. -/
theorem C5_capacity_rate_witness :
    Flask.calculate_location_kpis_for (fun _ => "") (fun _ => "") 20 [occupantAnimal]
        ⟨7, some 0⟩ =
      { animal_count := 1, capacity_rate_actual_ua_ha := none,
        capacity_rate_forecasted_ua_ha := none } ∧
    Flask.calculate_location_kpis_for (fun _ => "") (fun _ => "") 20 [occupantAnimal]
        ⟨7, some 2⟩ =
      { animal_count := 1, capacity_rate_actual_ua_ha := some 0.22,
        capacity_rate_forecasted_ua_ha := some 0.22 } ∧
    Django.location_get_kpis none (some ⟨5, 100, 200⟩) =
      { animal_count := 5, capacity_rate_actual_ua_ha := none,
        capacity_rate_forecasted_ua_ha := none } ∧
    Django.location_get_kpis (some 2) (some ⟨5, 900, 0⟩) =
      { animal_count := 5, capacity_rate_actual_ua_ha := some 1,
        capacity_rate_forecasted_ua_ha := none } := by
  refine ⟨?_, ?_, ?_, ?_⟩
  · exact (C5_capacity_rate_null_on_missing_area.1 (fun _ => "") (fun _ => "") 20
      [occupantAnimal] ⟨7, some 0⟩
      (fun ar h => by injection h with h2; rw [← h2])).trans
      (by with_unfolding_all decide)
  · exact (C5_capacity_rate_null_on_missing_area.2.1 (fun _ => "") (fun _ => "") 20
      [occupantAnimal] ⟨7, some 2⟩ 2 rfl (by norm_num)).trans
      (by with_unfolding_all decide)
  · exact (C5_capacity_rate_null_on_missing_area.2.2.1 none (some ⟨5, 100, 200⟩)
      (fun ar h => by cases h)).trans (by with_unfolding_all decide)
  · exact (C5_capacity_rate_null_on_missing_area.2.2.2 2 (some ⟨5, 900, 0⟩)
      (by norm_num)).trans (by with_unfolding_all decide)

/-- Counterexample to C5 as stated: a 10-hectare Django location with no
occupants reports a `null` actual capacity rate, while the claimed formula
`(sum / 450) / area` evaluates to 0 there — `null ≠ 0`. -/
theorem C5_counterexample_django_zero_total_null :
    Django.location_get_kpis (some 10) none =
      { animal_count := 0, capacity_rate_actual_ua_ha := none,
        capacity_rate_forecasted_ua_ha := none } ∧
    pyRound2 (((0 : ℚ) / 450) / 10) = 0 ∧
    (none : Option ℚ) ≠ some 0 := by
  with_unfolding_all decide

/-- C6 (amended).  In `Purchase.calculate_kpis` the status is exactly one of
Active / Sold / Dead (a single string field) and the forecast is `null` iff
the status is not Active; but in the Django `animal_search` annotations (which
only ever see Active animals) the forecast is SQL `NULL` whenever the animal
has no recorded weighing at all. -/
theorem C6_status_partition_forecast :
    (∀ (locName sublocName : Nat → String) (a : Purchase) (today : Date),
      ((Flask.calculate_kpis locName sublocName a today).status = "Active" ∨
       (Flask.calculate_kpis locName sublocName a today).status = "Sold" ∨
       (Flask.calculate_kpis locName sublocName a today).status = "Dead") ∧
      ((Flask.calculate_kpis locName sublocName a today).forecasted_current_weight_kg = none ↔
        (Flask.calculate_kpis locName sublocName a today).status ≠ "Active")) ∧
    (∀ (a : Purchase) (now : Date),
      a.weightings = [] → a.sale = none → a.death = none →
      Django.animal_search_forecast a now = none) := by
  constructor
  · intro locName sublocName a today
    cases hsale : a.sale with
    | some s => simp [Flask.calculate_kpis, hsale]
    | none =>
      cases hdeath : a.death with
      | some dth => simp [Flask.calculate_kpis, hsale, hdeath]
      | none => simp [Flask.calculate_kpis, hsale, hdeath]
  · intro a now hw _ _
    simp [Django.animal_search_forecast, Django.latestByDateId, hw]

/-- Witness for C6: scenario B's animal is Active with a numeric forecast, and
the Django search forecast of an active animal with no weighings is null. -/
theorem C6_status_partition_forecast_witness :
    (((Flask.calculate_kpis (fun _ => "") (fun _ => "") scenarioB 30).status = "Active" ∨
      (Flask.calculate_kpis (fun _ => "") (fun _ => "") scenarioB 30).status = "Sold" ∨
      (Flask.calculate_kpis (fun _ => "") (fun _ => "") scenarioB 30).status = "Dead") ∧
     ((Flask.calculate_kpis (fun _ => "") (fun _ => "") scenarioB 30).forecasted_current_weight_kg
         = none ↔
       (Flask.calculate_kpis (fun _ => "") (fun _ => "") scenarioB 30).status ≠ "Active")) ∧
    Django.animal_search_forecast noEventsAnimal 25 = none :=
  ⟨C6_status_partition_forecast.1 (fun _ => "") (fun _ => "") scenarioB 30,
   C6_status_partition_forecast.2 noEventsAnimal 25 rfl rfl rfl⟩

/-- Counterexample to C6 as stated: an Active animal (no sale, no death) with
no weighings gets a `NULL` forecast from the Django `animal_search`
annotations, so "forecast is null iff status is not Active" fails on that
cited code path. -/
theorem C6_counterexample_active_null_forecast :
    noEventsAnimal.sale = none ∧ noEventsAnimal.death = none ∧
    Django.animal_search_forecast noEventsAnimal 20 = none := by
  with_unfolding_all decide

/-- C7 (amended).  For an Active animal with no location changes and no diet
logs ever recorded, both generations return without error; the id and intake
fields are `null` in both, and the Django serializer also reports `null`
location/sublocation names and diet type, but the Flask `calculate_kpis`
fills `current_location_name` and `current_diet_type` with the placeholder
string "N/A". -/
theorem C7_no_events_current_state_fields :
    ∀ (locName sublocName : Nat → String) (a : Purchase) (today : Date),
      a.location_changes = [] → a.diet_logs = [] → a.sale = none → a.death = none →
      ((Flask.calculate_kpis locName sublocName a today).current_location_id = none ∧
       (Flask.calculate_kpis locName sublocName a today).current_sublocation_id = none ∧
       (Flask.calculate_kpis locName sublocName a today).current_sublocation_name = none ∧
       (Flask.calculate_kpis locName sublocName a today).current_diet_intake = none ∧
       (Flask.calculate_kpis locName sublocName a today).current_location_name = some "N/A" ∧
       (Flask.calculate_kpis locName sublocName a today).current_diet_type = some "N/A") ∧
      ((Django.get_calculated_kpis locName sublocName a today).current_location_id = none ∧
       (Django.get_calculated_kpis locName sublocName a today).current_location_name = none ∧
       (Django.get_calculated_kpis locName sublocName a today).current_sublocation_id = none ∧
       (Django.get_calculated_kpis locName sublocName a today).current_sublocation_name = none ∧
       (Django.get_calculated_kpis locName sublocName a today).current_diet_type = none ∧
       (Django.get_calculated_kpis locName sublocName a today).current_diet_intake = none) := by
  intro locName sublocName a today hloc hdiet hsale hdeath
  constructor
  · simp [Flask.calculate_kpis, Flask.latestByDateDesc, hloc, hdiet, hsale, hdeath,
      List.insertionSort]
  · simp [Django.get_calculated_kpis, Django.latestByDateId, hloc, hdiet, hsale, hdeath]

/-- Witness for C7: the event-less active animal, evaluated as of day 20. -/
theorem C7_no_events_witness :
    ((Flask.calculate_kpis (fun _ => "") (fun _ => "") noEventsAnimal 20).current_location_id
        = none ∧
     (Flask.calculate_kpis (fun _ => "") (fun _ => "") noEventsAnimal 20).current_sublocation_id
        = none ∧
     (Flask.calculate_kpis (fun _ => "") (fun _ => "") noEventsAnimal 20).current_sublocation_name
        = none ∧
     (Flask.calculate_kpis (fun _ => "") (fun _ => "") noEventsAnimal 20).current_diet_intake
        = none ∧
     (Flask.calculate_kpis (fun _ => "") (fun _ => "") noEventsAnimal 20).current_location_name
        = some "N/A" ∧
     (Flask.calculate_kpis (fun _ => "") (fun _ => "") noEventsAnimal 20).current_diet_type
        = some "N/A") ∧
    ((Django.get_calculated_kpis (fun _ => "") (fun _ => "") noEventsAnimal 20).current_location_id
        = none ∧
     (Django.get_calculated_kpis (fun _ => "") (fun _ => "") noEventsAnimal 20).current_location_name
        = none ∧
     (Django.get_calculated_kpis (fun _ => "") (fun _ => "") noEventsAnimal 20).current_sublocation_id
        = none ∧
     (Django.get_calculated_kpis (fun _ => "") (fun _ => "") noEventsAnimal 20).current_sublocation_name
        = none ∧
     (Django.get_calculated_kpis (fun _ => "") (fun _ => "") noEventsAnimal 20).current_diet_type
        = none ∧
     (Django.get_calculated_kpis (fun _ => "") (fun _ => "") noEventsAnimal 20).current_diet_intake
        = none) :=
  C7_no_events_current_state_fields (fun _ => "") (fun _ => "") noEventsAnimal 20 rfl rfl rfl rfl

/-- Counterexample to C7 as stated: with no location changes and no diet logs,
the Flask KPI record holds the placeholder "N/A" — not `null` — in
`current_location_name` and `current_diet_type`. -/
theorem C7_counterexample_na_placeholder :
    noEventsAnimal.location_changes = [] ∧ noEventsAnimal.diet_logs = [] ∧
    (Flask.calculate_kpis (fun _ => "") (fun _ => "") noEventsAnimal 20).current_location_name
      = some "N/A" ∧
    (Flask.calculate_kpis (fun _ => "") (fun _ => "") noEventsAnimal 20).current_diet_type
      = some "N/A" ∧
    (some "N/A" : Option String) ≠ none := by
  with_unfolding_all decide

/-- Second lot animal: entered on day 3. -/
def lotAnimal2 : Purchase :=
  { id := 8, ear_tag := "L-002", lot := 4, entry_date := 3, entry_weight := 210,
    sex := "M", entry_age := 11, weightings := [],
    location_changes := [], diet_logs := [], sale := none, death := none }

/-- Third lot animal: entered on day 6. -/
def lotAnimal3 : Purchase :=
  { id := 9, ear_tag := "L-003", lot := 4, entry_date := 6, entry_weight := 190,
    sex := "F", entry_age := 9, weightings := [],
    location_changes := [], diet_logs := [], sale := none, death := none }

/-- C9 (amended).  The lot summary's `average_age_months` is the arithmetic
mean of the animals' UNROUNDED per-animal ages
`entry_age + days_on_farm / 30.44` (the `_current_age_months` annotation); the
per-animal KPI record reports that same quantity rounded to 2 decimals, so the
summary average can differ from the mean of the individually reported values
(see the counterexample). -/
theorem C9_lot_average_age_unrounded_mean :
    (∀ (animals : List Purchase) (today : Date), animals ≠ [] →
      Django.lots_summary_average_age_months animals today =
        ((animals.map fun a => Django.current_age_months_annotation a today).sum) /
          (animals.length : ℚ)) ∧
    (∀ (locName sublocName : Nat → String) (a : Purchase) (today : Date),
      a.sale = none → a.death = none →
      (Flask.calculate_kpis locName sublocName a today).current_age_months =
        pyRound2 (Django.current_age_months_annotation a today)) := by
  constructor
  · intro animals today _
    rfl
  · intro locName sublocName a today hsale hdeath
    simp [Flask.calculate_kpis, Django.current_age_months_annotation, hsale, hdeath]

/-- Witness for C9: scenario E's lot of three active animals with distinct
entry dates (days 0, 3, 6), evaluated as of day 20. -/
theorem C9_lot_average_age_witness :
    Django.lots_summary_average_age_months [lotAnimal, lotAnimal2, lotAnimal3] 20 =
      (([lotAnimal, lotAnimal2, lotAnimal3].map
          fun a => Django.current_age_months_annotation a 20).sum) /
        (([lotAnimal, lotAnimal2, lotAnimal3] : List Purchase).length : ℚ) ∧
    (Flask.calculate_kpis (fun _ => "") (fun _ => "") lotAnimal 20).current_age_months =
      pyRound2 (Django.current_age_months_annotation lotAnimal 20) :=
  ⟨C9_lot_average_age_unrounded_mean.1 [lotAnimal, lotAnimal2, lotAnimal3] 20 (by simp),
   C9_lot_average_age_unrounded_mean.2 (fun _ => "") (fun _ => "") lotAnimal 20 rfl rfl⟩

/-- Counterexample to C9 as stated: for a lot holding the single animal with
entry age 10 months and 5 days on farm, the summary average is the unrounded
`10 + 5/30.44 = 7735/761`, while the individually computed (2-decimal-rounded)
`current_age_months` is `10.16`; the mean of the individual values is thus
`10.16 ≠ 7735/761`. -/
theorem C9_counterexample_rounding_mismatch :
    Django.lots_summary_average_age_months [lotAnimal] 5 ≠
      (([lotAnimal].map
        fun a => (Flask.calculate_kpis (fun _ => "") (fun _ => "") a 5).current_age_months).sum) /
        (([lotAnimal] : List Purchase).length : ℚ) ∧
    (Flask.calculate_kpis (fun _ => "") (fun _ => "") lotAnimal 5).current_age_months
      = 10.16 ∧
    Django.lots_summary_average_age_months [lotAnimal] 5 ≠ 10.16 := by
  with_unfolding_all decide

/-- C10 (amended).  When no weighing is dated exactly on the sale date, no
error is raised: the Flask `Sale.to_dict` reports `exit_weight = 0.0` and
`gmd_kg_day = 0.0` (its GMD is computed only when `days_on_farm > 0` and
`exit_weight > 0`), while the Django `SaleSerializer` reports
`exit_weight = null` and `gmd_kg_day = 0.0` (its GMD is computed only when
`days_on_farm > 0` and an exit weighing exists). -/
theorem C10_sale_without_exit_weighing :
    ∀ (s : Sale) (a : Purchase),
      (a.weightings.filter fun w => w.date = s.date) = [] →
      (Flask.sale_to_dict s a).exit_weight = 0 ∧
      (Flask.sale_to_dict s a).gmd_kg_day = 0 ∧
      (Flask.sale_to_dict s a).days_on_farm = s.date - a.entry_date ∧
      Django.sale_get_exit_weight s a = none ∧
      Django.sale_get_gmd_kg_day s a = 0 := by
  intro s a hf
  have hr0 : pyRound3 0 = 0 := by with_unfolding_all decide
  refine ⟨?_, ?_, ?_, ?_, ?_⟩
  · simp [Flask.sale_to_dict, hf]
  · simp [Flask.sale_to_dict, hf, hr0]
  · simp [Flask.sale_to_dict, hf]
  · simp [Django.sale_get_exit_weight, hf]
  · simp [Django.sale_get_gmd_kg_day, Django.sale_get_exit_weight, hf]

/-- Witness for C10: the animal sold on day 30 whose only weighing is on day
10. -/
theorem C10_sale_without_exit_weighing_witness :
    (Flask.sale_to_dict ⟨1, 30, 1000⟩ soldAnimal).exit_weight = 0 ∧
    (Flask.sale_to_dict ⟨1, 30, 1000⟩ soldAnimal).gmd_kg_day = 0 ∧
    (Flask.sale_to_dict ⟨1, 30, 1000⟩ soldAnimal).days_on_farm = 30 ∧
    Django.sale_get_exit_weight ⟨1, 30, 1000⟩ soldAnimal = none ∧
    Django.sale_get_gmd_kg_day ⟨1, 30, 1000⟩ soldAnimal = 0 := by
  have h := C10_sale_without_exit_weighing ⟨1, 30, 1000⟩ soldAnimal
    (by with_unfolding_all decide)
  exact ⟨h.1, h.2.1, h.2.2.1.trans (by with_unfolding_all decide), h.2.2.2.1, h.2.2.2.2⟩

/-- Counterexample to C10 as stated: with no weighing on the sale date the
Django `SaleSerializer.get_exit_weight` reports `null`, not `0.0`. -/
theorem C10_counterexample_django_exit_weight_null :
    (soldAnimal.weightings.filter fun w => w.date = (30 : Int)) = [] ∧
    Django.sale_get_exit_weight ⟨1, 30, 1000⟩ soldAnimal = none ∧
    (none : Option ℚ) ≠ some 0 := by
  with_unfolding_all decide

end Bovitrack